import Mathlib

/-!
Verification development for the `pretty_sitter` tree renderer.

The development shallowly embeds the renderer's data model and operations:
strings are Lean `String`s, the parse tree is an explicit inductive, the
output sink is a list of emitted lines, and Python exceptions are `Except`.
Each definition is translated from the corresponding function of
`src/pretty_sitter/pretty_sitter.py`, `src/pretty_sitter/colorer.py` or
`src/pretty_sitter/config.py`; comments cite the source.
-/

deriving instance DecidableEq for Except

namespace PrettySitter

/-! ### String helpers -/

/-- Python `c * k` for a repeated character: the empty string when `k ≤ 0`. -/
def strRepeat (c : Char) (k : Int) : String := ⟨List.replicate k.toNat c⟩

/-- `str.replace('\n', r'\n')` on the character list (the pattern is a single
character, so per-character replacement is exact). -/
def escNlChars : List Char → List Char
  | [] => []
  | c :: r => if c = '\n' then '\\' :: 'n' :: escNlChars r else c :: escNlChars r

/-- `PrettySitter._text`: the node's decoded byte slice with every literal
newline replaced by the two-character sequence `\n`.  The embedding stores the
decoded slice `code[n.start_byte:n.end_byte]` on the node itself. -/
def nodeText (raw : String) : String := ⟨escNlChars raw.data⟩

/-- `str.replace("'", r"\'")` (quote escaping used by the debug trace). -/
def escQuoteChars : List Char → List Char
  | [] => []
  | c :: r => if c = '\x27' then '\\' :: '\x27' :: escQuoteChars r else c :: escQuoteChars r

def escQuote (s : String) : String := ⟨escQuoteChars s.data⟩

/-- `node_type.replace('"', r'\"')` (double-quote escaping for anonymous nodes). -/
def escDquoteChars : List Char → List Char
  | [] => []
  | c :: r => if c = '"' then '\\' :: '"' :: escDquoteChars r else c :: escDquoteChars r

def escDquote (s : String) : String := ⟨escDquoteChars s.data⟩

/-! ### Style stripping

`color_regex = re.compile(r'\033\[[0-9;]*m')`, and
`PrettySitter._uncolor` / `colorer.Colorer.uncolor` substitute every match by
the empty string.  `re.sub` scans left to right: at each position it tries to
match `ESC [ params m`; on success the match is dropped and scanning resumes
after it, on failure the character is kept and scanning resumes one position
later.  Because none of `[`, the parameter characters `[0-9;]` or `m` equals
`ESC`, a failed candidate can only restart at a later `ESC`.  `uncolorGo`
implements exactly this scan; the mode records how much of a candidate match
has been consumed. -/

/-- A character the regex class `[0-9;]` accepts. -/
def isParamChar (c : Char) : Bool := ('0' ≤ c && c ≤ '9') || c = ';'

inductive UMode where
  | top
  | esc
  | bracket (params : List Char)

def uncolorGo : UMode → List Char → List Char
  | .top, [] => []
  | .top, c :: rest => if c = '\x1b' then uncolorGo .esc rest else c :: uncolorGo .top rest
  | .esc, [] => ['\x1b']
  | .esc, c :: rest =>
      if c = '[' then uncolorGo (.bracket []) rest
      else if c = '\x1b' then '\x1b' :: uncolorGo .esc rest
      else '\x1b' :: c :: uncolorGo .top rest
  | .bracket ps, [] => '\x1b' :: '[' :: ps
  | .bracket ps, c :: rest =>
      if c = 'm' then uncolorGo .top rest
      else if isParamChar c then uncolorGo (.bracket (ps ++ [c])) rest
      else if c = '\x1b' then '\x1b' :: '[' :: ps ++ uncolorGo .esc rest
      else '\x1b' :: '[' :: ps ++ c :: uncolorGo .top rest

/-- `PrettySitter._uncolor` (also `colorer.Colorer.uncolor`): remove every
`\033[[0-9;]*m` escape sequence. -/
def uncolor (s : String) : String := ⟨uncolorGo .top s.data⟩

/-! ### The Colorer of `pretty_sitter.py` -/

/-- `Colorer.COLOR_MAP` of `pretty_sitter.py`. -/
def COLOR_MAP : List (String × Nat) :=
  [("red", 91), ("green", 32), ("green2", 92), ("yellow", 93), ("blue", 94),
   ("cyan", 96), ("gray", 37)]

/-- `Colorer._apply` of `pretty_sitter.py`: `bold=None` defers to the
boldworthy predicate applied to the text; bold prepends modifiers `1;4`. -/
def psApply (bw : String → Bool) (text : String) (color : Nat)
    (modifiers : List Nat) (bold : Option Bool) : String :=
  let b := bold.getD (bw text)
  let mods := if b then 1 :: 4 :: modifiers ++ [color] else modifiers ++ [color]
  "\x1b[" ++ String.intercalate ";" (mods.map toString) ++ "m" ++ text ++ "\x1b[0m"

/-- A named-palette brush of `pretty_sitter.py`'s Colorer, called with its
default `bold=None`: `__getattr__` raises `NotImplementedError` on a name
outside `COLOR_MAP`. -/
def psColorBrush (bw : String → Bool) (item : String) (text : String) (bold : Option Bool) :
    Except String String :=
  match COLOR_MAP.lookup item with
  | some c => .ok (psApply bw text c [] bold)
  | none => .error ("color " ++ item ++ " undefined; defined colors are: " ++
      "(\x27red\x27, \x27green\x27, \x27green2\x27, \x27yellow\x27, \x27blue\x27, \x27cyan\x27, \x27gray\x27)")

/-- `self._colorer.gray text` (instance brush, default bold). -/
def psGray (bw : String → Bool) (text : String) : String := psApply bw text 37 [] none

/-- `Colorer.by_number` of `pretty_sitter.py`: color code `number * 10`,
modifiers `(38, 5)`, default bold. -/
def psByNumber (bw : String → Bool) (number : Nat) (text : String) : String :=
  psApply bw text (number * 10) [38, 5] none

/-! ### The Colorer of `colorer.py` (standalone module) -/

/-- `Colorer.COLOR_MAP` of `colorer.py` (textually the same table). -/
def csCOLOR_MAP : List (String × Nat) :=
  [("red", 91), ("green", 32), ("green2", 92), ("yellow", 93), ("blue", 94),
   ("cyan", 96), ("gray", 37)]

/-- `Colorer._apply` of `colorer.py`: no `bold` parameter, always consults the
boldworthy predicate. -/
def csApply (bw : String → Bool) (text : String) (color : Nat)
    (modifiers : List Nat) : String :=
  let mods := if bw text then 1 :: 4 :: modifiers ++ [color] else modifiers ++ [color]
  "\x1b[" ++ String.intercalate ";" (mods.map toString) ++ "m" ++ text ++ "\x1b[0m"

/-- A named-palette brush of `colorer.py`'s Colorer (its `_brush` takes no
bold argument). -/
def csColorBrush (bw : String → Bool) (item : String) (text : String) :
    Except String String :=
  match csCOLOR_MAP.lookup item with
  | some c => .ok (csApply bw text c [])
  | none => .error ("color " ++ item ++ " undefined; defined colors are: " ++
      "(\x27red\x27, \x27green\x27, \x27green2\x27, \x27yellow\x27, \x27blue\x27, \x27cyan\x27, \x27gray\x27)")

/-- `colorer.Colorer.uncolor`: the same substitution `re.sub(r'\033\[[0-9;]*m', '', text)`
as `pretty_sitter.color_regex`; its embedding is therefore the same scan. -/
def csUncolor (s : String) : String := ⟨uncolorGo .top s.data⟩

/-! ### `Colorer.persist` (identical in both modules)

```
@contextlib.contextmanager
def persist(self, *, bold):
    old_worthy = self._boldworthy
    self._boldworthy = lambda _: bold
    yield
    self._boldworthy = old_worthy
```

A generator-based context manager: on normal completion of the `with` body the
generator resumes after `yield` and restores `_boldworthy`.  When the body
raises, the exception is thrown into the generator at the `yield`; there is no
`try/finally`, so the generator propagates it and the line after `yield` never
runs.  The mutable colorer state is its `_boldworthy` predicate. -/

structure ColorerState where
  boldworthy : String → Bool

/-- Outcome of the `with`-block body: a value, or an exception escaping it. -/
inductive BodyOutcome (α : Type) where
  | ok (a : α)
  | raised

/-- Execution of `with colorer.persist(bold=bold): body` from state `st`:
the body runs with the constant predicate; the prior predicate is reinstated
only on the normal path. -/
def persistRun {α : Type} (bold : Bool) (body : ColorerState → BodyOutcome α × ColorerState)
    (st : ColorerState) : BodyOutcome α × ColorerState :=
  let old_worthy := st.boldworthy
  match body { boldworthy := fun _ => bold } with
  | (.ok a, _) => (.ok a, { boldworthy := old_worthy })
  | (.raised, st2) => (.raised, st2)

/-! ### Parse-tree model

A `tree_sitter.Node` as the renderer reads it: type tag, `is_named`,
`start_point[0]`, the decoded byte slice `code[start_byte:end_byte]`, and the
ordered children each paired with `field_name_for_child(i)`. -/

mutual
inductive PNode where
  | node (ty : String) (named : Bool) (row : Nat) (raw : String) (children : PForest)
inductive PForest where
  | nil
  | cons (fieldName : Option String) (head : PNode) (tail : PForest)
end

def PNode.ty : PNode → String
  | .node t _ _ _ _ => t

def PNode.named : PNode → Bool
  | .node _ b _ _ _ => b

def PNode.row : PNode → Nat
  | .node _ _ r _ _ => r

def PNode.raw : PNode → String
  | .node _ _ _ s _ => s

def PNode.children : PNode → PForest
  | .node _ _ _ _ cs => cs

mutual
/-- Node equality (`tree_sitter.Node.__eq__`): distinct nodes of a tree never
compare equal; structural equality of the embedded nodes stands in for it. -/
def nodeEq : PNode → PNode → Bool
  | .node t1 n1 r1 s1 c1, .node t2 n2 r2 s2 c2 =>
      t1 == t2 && n1 == n2 && r1 == r2 && s1 == s2 && forestEq c1 c2
def forestEq : PForest → PForest → Bool
  | .nil, .nil => true
  | .cons f1 n1 t1, .cons f2 n2 t2 => f1 == f2 && nodeEq n1 n2 && forestEq t1 t2
  | .nil, .cons _ _ _ => false
  | .cons _ _ _, .nil => false
end

/-- Python `n in nodes` over a node list. -/
def containsNode (l : List PNode) (n : PNode) : Bool := l.any fun m => nodeEq n m

/-! ### `_CombinedConfig` of `pretty_sitter.py` (field defaults from the
dataclasses `UIConfig`, `FilterConfig`, `MarkingConfig`, `TTYConfig`,
`DebugConfig` of that module). -/

structure CombinedConfig where
  with_text : Bool := true
  with_trivial : Bool := false
  close_pars_early : Bool := true
  print_with_color : Bool := true
  color_legend : Bool := true
  dotted : Bool := false
  column_width : Int := 100
  indent_size : Int := 4
  excluded_types : Option (List String) := none
  only_types : Option (List String) := none
  definition_nodes : Option (List PNode) := none
  usage_nodes : Option (List PNode) := none
  undefined_usage_nodes : Option (List PNode) := none
  use_pager : Bool := false
  debug : Bool := false
  debug_only : Bool := false

def defaultConfig : CombinedConfig := {}

/-! ### Filter & classification predicates -/

/-- `PrettySitter._trivial`: the display text equals the type tag. -/
def trivialNode (n : PNode) : Bool := n.ty == nodeText n.raw

/-- `PrettySitter._excluded`. -/
def excluded (cfg : CombinedConfig) (n : PNode) : Bool :=
  match cfg.excluded_types with
  | some l => l.contains n.ty
  | none => false

mutual
/-- `PrettySitter._included`: true with no allow-list; a childless node by its
own type; a node with children by any child, recursively. -/
def included (cfg : CombinedConfig) : PNode → Bool
  | .node t _ _ _ cs =>
      match cfg.only_types with
      | none => true
      | some only =>
          match cs with
          | .nil => only.contains t
          | .cons f h rest => anyIncluded cfg (.cons f h rest)
def anyIncluded (cfg : CombinedConfig) : PForest → Bool
  | .nil => false
  | .cons _ n t => included cfg n || anyIncluded cfg t
end

/-- `PrettySitter._printworthy`:
`not any((excluded, not included, not with_trivial and trivial))`. -/
def printworthy (cfg : CombinedConfig) (n : PNode) : Bool :=
  !(excluded cfg n || !included cfg n || (!cfg.with_trivial && trivialNode n))

/-- `PrettySitter._boldworthy`: an allow-list is active and the painted text
is one of its entries. -/
def boldworthy (cfg : CombinedConfig) (node_type : String) : Bool :=
  match cfg.only_types with
  | some l => l.contains node_type
  | none => false

def allTrivial : PForest → Bool
  | .nil => true
  | .cons _ n t => trivialNode n && allTrivial t

/-- `PrettySitter._leaf`: childless, or (trivial nodes hidden and) every child
trivial. -/
def leafNode (cfg : CombinedConfig) (n : PNode) : Bool :=
  match n.children with
  | .nil => true
  | .cons f h rest => !cfg.with_trivial && allTrivial (.cons f h rest)

/-! ### Mark resolution -/

def isDefinition (cfg : CombinedConfig) (n : PNode) : Bool :=
  match cfg.definition_nodes with
  | some l => containsNode l n
  | none => false

def isUsage (cfg : CombinedConfig) (n : PNode) : Bool :=
  match cfg.usage_nodes with
  | some l => containsNode l n
  | none => false

def isUndefinedUsage (cfg : CombinedConfig) (n : PNode) : Bool :=
  match cfg.undefined_usage_nodes with
  | some l => containsNode l n
  | none => false

/-- `PrettySitter._obtain_first_color`, as the palette code of the returned
brush (red 91, green2 92, yellow 93, blue 94, gray 37). -/
def obtainFirstColor (cfg : CombinedConfig) (n : PNode) : Nat :=
  if isDefinition cfg n then 91
  else if isUsage cfg n then 92
  else if isUndefinedUsage cfg n then 93
  else if !trivialNode n then 94
  else 37

/-- `PrettySitter._obtain_second_color` (red 91, green2 92, yellow 93,
cyan 96, gray 37). -/
def obtainSecondColor (cfg : CombinedConfig) (n : PNode) : Nat :=
  if isDefinition cfg n then 91
  else if isUsage cfg n then 92
  else if isUndefinedUsage cfg n then 93
  else if leafNode cfg n then 96
  else 37

/-- The mark groups in registration order, as `config.py`'s
`MarkingConfig.__post_init__` registers them: Definitions (red 91), Usages
(green2 92), Undefined (yellow 93). -/
def marksList (cfg : CombinedConfig) : List (String × Nat × Option (List PNode)) :=
  [("Definitions", 91, cfg.definition_nodes),
   ("Usages", 92, cfg.usage_nodes),
   ("Undefined", 93, cfg.undefined_usage_nodes)]

/-- The mark resolver of the spec: scan the groups in registration order and
return the first whose node set contains the node. -/
def markMatches (n : PNode) (g : String × Nat × Option (List PNode)) : Bool :=
  match g.2.2 with
  | some l => containsNode l n
  | none => false

def resolveMark (cfg : CombinedConfig) (n : PNode) : Option (String × Nat) :=
  match (marksList cfg).find? (markMatches n) with
  | some g => some (g.1, g.2.1)
  | none => none

/-! ### Layout and output -/

/-- `PrettySitter._column`.  In the dotted branch the source evaluates
`Colorer.gray('.' * (column_width - len(uncolor(text)) + 2))` where `Colorer`
is the *class*: `__getattr__` is defined for instances only, so the attribute
lookup raises `AttributeError` before any padding is built.  The non-dotted
branch pads with spaces measured on the style-stripped text (a negative
repeat count yields the empty string, as in Python). -/
def column (cfg : CombinedConfig) (text : String) : Except String String :=
  if cfg.dotted then
    .error "AttributeError: type object \x27Colorer\x27 has no attribute \x27gray\x27"
  else
    .ok (text ++ strRepeat ' ' (cfg.column_width - ((uncolor text).length : Int)))

/-- `PrettySitter._indent`. -/
def indentStr (cfg : CombinedConfig) (depth : Nat) (text : String) : String :=
  strRepeat ' ' (cfg.indent_size * (depth : Int)) ++ text

/-- A match of `re.match(rf'^(?:\033\[[0-9;]*m)?DEBUG:', text)`. -/
def stripParamsPrefix : List Char → Option (List Char)
  | [] => none
  | c :: rest => if c = 'm' then some rest
      else if isParamChar c then stripParamsPrefix rest else none

def stripColorPrefix : List Char → Option (List Char)
  | '\x1b' :: '[' :: rest => stripParamsPrefix rest
  | _ => none

def matchesDebug (t : String) : Bool :=
  "DEBUG:".data.isPrefixOf t.data ||
    (match stripColorPrefix t.data with
     | some r => "DEBUG:".data.isPrefixOf r
     | none => false)

/-- `PrettySitter._print`: the debug-only filter first drops (returns on)
lines lacking the `DEBUG:` prefix, tested on the text before stripping.  An
unfiltered line then goes to the sink: without the pager it is printed to
stdout, stripped when color output is disabled.  With the pager the source
executes `self._print.pager_lines = []` — an attribute write on a *bound
method* object (`self._print` is rebuilt on each access and method objects
reject attribute assignment), so every unfiltered call raises
`AttributeError` before anything is buffered, and nothing is emitted. -/
def printLine (cfg : CombinedConfig) (text : String) : Except String (List String) :=
  if cfg.debug_only && !matchesDebug text then .ok []
  else if cfg.use_pager then
    .error "AttributeError: \x27method\x27 object has no attribute \x27pager_lines\x27"
  else .ok [if cfg.print_with_color then text else uncolor text]

/-- `f"{node_line:>3}"`. -/
def alignRight3 (k : Nat) : String :=
  let s := toString k
  strRepeat ' ' (3 - (s.length : Int)) ++ s

/-- `text_quoted[:12] + '...' if len(text_quoted) > 15 else text_quoted`
(over the quote-escaped text). -/
def truncText (node_text : String) : String :=
  let tq := escQuote node_text
  if tq.length > 15 then (⟨tq.data.take 12⟩ : String) ++ "..." else tq

/-- `node_name`: the type tag, double-quote-escaped and quoted when the node
is anonymous. -/
def displayName (n : PNode) : String :=
  if n.named then n.ty else "\"" ++ escDquote n.ty ++ "\""

/-- The `DEBUG: skipped` trace line built for a non-printworthy node (the
marker glyph reproduces the source file's literal characters). -/
def skippedLineRaw (cfg : CombinedConfig) (n : PNode) (depth : Nat) (endStr : String) : String :=
  let bw := boldworthy cfg
  psGray bw "DEBUG: ðŸ”´ skipped node_name="
  ++ displayName n
  ++ psGray bw (", text=\x27" ++ truncText (nodeText n.raw) ++ "\x27")
  ++ psGray bw (", depth=" ++ toString depth ++ ", end=\x27")
  ++ endStr
  ++ psGray bw "\x27"

/-- The `DEBUG: entered` trace line for a printworthy node. -/
def enteredLineRaw (cfg : CombinedConfig) (n : PNode) (depth : Nat) (endStr : String) : String :=
  let bw := boldworthy cfg
  psGray bw "DEBUG: ðŸŸ¢ entered node_name="
  ++ psApply bw (displayName n) (obtainFirstColor cfg n) [] none
  ++ psGray bw (", text=\x27" ++ truncText (nodeText n.raw) ++ "\x27")
  ++ psGray bw (", depth=" ++ toString depth ++ ", end=\x27")
  ++ endStr
  ++ psGray bw "\x27"

/-- Index of the last printworthy child
(`next(c for c in reversed(n.children) if self._printworthy(c, code))`).
`Node.__eq__` never identifies distinct siblings, so the loop's comparison
`child == last_printworthy_child` is positional and the embedding compares
child indices. -/
def lastPW (cfg : CombinedConfig) : PForest → Option Nat
  | .nil => none
  | .cons _ n t =>
      match lastPW cfg t with
      | some i => some (i + 1)
      | none => if printworthy cfg n then some 0 else none

/-! ### The renderer -/

/-- `attr_name_in_parent + ': '` when present, else the empty prefix. -/
def attrPrefixStr : Option String → String
  | some a => a ++ ": "
  | none => ""

/-- The header segment `first_part`: indentation, field-name prefix,
depth-cycled opening bracket and the first-colored display name. -/
def firstPartStr (cfg : CombinedConfig) (n : PNode) (attrName : Option String)
    (depth : Nat) : String :=
  indentStr cfg depth (attrPrefixStr attrName ++ psByNumber (boldworthy cfg) depth "(" ++
    psApply (boldworthy cfg) (displayName n) (obtainFirstColor cfg n) [] none)

/-- The trailing segment `second_part`: gray right-aligned line number and
the second-colored node text. -/
def secondPartStr (cfg : CombinedConfig) (n : PNode) : String :=
  psGray (boldworthy cfg) (alignRight3 n.row ++ ": ") ++
    psApply (boldworthy cfg) (nodeText n.raw) (obtainSecondColor cfg n) [] none

/-- One `_print` call as seen by the caller: the lines that reached the sink
(none when the pager path raises) and whether an exception escaped. -/
def emit (cfg : CombinedConfig) (text : String) : List String × Except String Unit :=
  match printLine cfg text with
  | .ok ls => (ls, .ok ())
  | .error e => ([], .error e)

mutual
/-- `PrettySitter._print_node`: the pair of (lines handed to the sink, in
order) and (`.ok returnValue`, or `.error message` when an exception escapes
the call — lines emitted before the exception are kept, as the sink has
already received them). -/
def printNode (cfg : CombinedConfig) : PNode → Option String → Nat → String →
    List String × Except String Bool
  | .node ty named row raw cs, attrName, depth, endStr =>
    let n : PNode := .node ty named row raw cs
    if !printworthy cfg n then
      if cfg.debug then
        match emit cfg (skippedLineRaw cfg n depth endStr) with
        | (ls, .ok _) => (ls, .ok false)
        | (ls, .error e) => (ls, .error e)
      else ([], .ok false)
    else
      match (if cfg.debug then emit cfg (enteredLineRaw cfg n depth endStr)
             else ([], .ok ())) with
      | (dls, .error e) => (dls, .error e)
      | (dls, .ok _) =>
        let first_part := firstPartStr cfg n attrName depth
        let second_part := secondPartStr cfg n
        let endStr' := psByNumber (boldworthy cfg) depth ")" ++ endStr
        match lastPW cfg cs with
        | some lastIdx =>
            let headerRes : List String × Except String Unit :=
              if !cfg.with_text then emit cfg first_part
              else match column cfg first_part with
                | .ok col => emit cfg (col ++ second_part)
                | .error e => ([], .error e)
            match headerRes with
            | (ls, .error e) => (dls ++ ls, .error e)
            | (ls, .ok _) =>
                match printChildren cfg cs 0 lastIdx depth endStr' with
                | (cls, .error e) => (dls ++ ls ++ cls, .error e)
                | (cls, .ok _) =>
                    if !cfg.close_pars_early then
                      match emit cfg (indentStr cfg depth
                          (psByNumber (boldworthy cfg) depth ")")) with
                      | (ls2, .ok _) => (dls ++ ls ++ cls ++ ls2, .ok true)
                      | (ls2, .error e) => (dls ++ ls ++ cls ++ ls2, .error e)
                    else (dls ++ ls ++ cls, .ok true)
        | none =>
            let first_part2 := first_part ++ endStr'
            match (if !cfg.with_text then emit cfg first_part2
                   else match column cfg first_part2 with
                     | .ok col => emit cfg (col ++ second_part)
                     | .error e => ([], .error e)) with
            | (ls, .ok _) => (dls ++ ls, .ok true)
            | (ls, .error e) => (dls ++ ls, .error e)

/-- The `for i, child in enumerate(n.children)` loop: the recursive result is
discarded, exceptions propagate, and only the last printworthy child receives
the accumulated closing suffix (when close-early is on). -/
def printChildren (cfg : CombinedConfig) : PForest → Nat → Nat → Nat → String →
    List String × Except String Unit
  | .nil, _, _, _, _ => ([], .ok ())
  | .cons fname c rest, i, lastIdx, depth, endStr' =>
      let childEnd := if cfg.close_pars_early && i == lastIdx then endStr' else ""
      match printNode cfg c fname (depth + 1) childEnd with
      | (ls, .error e) => (ls, .error e)
      | (ls, .ok _) =>
          match printChildren cfg rest (i + 1) lastIdx depth endStr' with
          | (ls2, r2) => (ls ++ ls2, r2)
end

/-- The legend line of `pprint`: built under `persist(bold=False)` (constant
false boldworthy), one colored label per configured mark set (red
`Definitions` 91, green `Usages` 32, yellow `Undefined` 93) plus cyan
`Leaves` 96, joined by `', '` after the `print('Color legend:', ...)`
prefix. -/
def legendLines (cfg : CombinedConfig) : List String :=
  if cfg.print_with_color && cfg.color_legend then
    let bw : String → Bool := fun _ => false
    let items :=
      (if cfg.definition_nodes.isSome then [psApply bw "Definitions" 91 [] none] else [])
      ++ (if cfg.usage_nodes.isSome then [psApply bw "Usages" 32 [] none] else [])
      ++ (if cfg.undefined_usage_nodes.isSome then [psApply bw "Undefined" 93 [] none] else [])
      ++ [psApply bw "Leaves" 96 [] none]
    ["Color legend: " ++ String.intercalate ", " items]
  else []

/-- `PrettySitter.pprint`, as its stdout lines: the TERM/TTY warnings go to
stderr, the optional legend line precedes the render, and the pager (when
used) re-emits the same buffered lines.  The render is
`_print_node(root, root.text)` at depth 0 with empty suffix. -/
def pprintOut (cfg : CombinedConfig) (root : PNode) : List String × Except String Bool :=
  match printNode cfg root none 0 "" with
  | (ls, r) => (legendLines cfg ++ ls, r)

/-! ### Configuration merge (`PrettySitter.configure`)

```
def configure(self, *configs: Config):
    combined_dict = reduce(dict.__or__, [c.__dict__ for c in configs], self._config.__dict__)
    self._config = _CombinedConfig(**combined_dict)
```

The prior `_CombinedConfig.__dict__` holds every field; a fragment's
dataclass `__dict__` holds every field **of its own group**, at the value
passed to the constructor or at the dataclass default — Python records no
distinction between the two.  `dict.__or__` is right-biased. -/

inductive CfgField where
  | with_text | with_trivial | close_pars_early | print_with_color | color_legend
  | dotted | column_width | indent_size
  | excluded_types | only_types
  | definition_nodes | usage_nodes | undefined_usage_nodes
  | use_pager
  | debug | debug_only
deriving DecidableEq

inductive CfgValue where
  | b (x : Bool)
  | i (x : Int)
  | strs (x : Option (List String))
  | nodes (x : Option (List PNode))

/-- A `UIConfig(...)` construction: `some` marks an argument passed
explicitly, `none` a field left to its dataclass default. -/
structure UIFragment where
  with_text : Option Bool := none
  with_trivial : Option Bool := none
  close_pars_early : Option Bool := none
  print_with_color : Option Bool := none
  color_legend : Option Bool := none
  dotted : Option Bool := none
  column_width : Option Int := none
  indent_size : Option Int := none

structure FilterFragment where
  excluded_types : Option (Option (List String)) := none
  only_types : Option (Option (List String)) := none

structure MarkingFragment where
  definition_nodes : Option (Option (List PNode)) := none
  usage_nodes : Option (Option (List PNode)) := none
  undefined_usage_nodes : Option (Option (List PNode)) := none

structure TTYFragment where
  use_pager : Option Bool := none

structure DebugFragment where
  debug : Option Bool := none
  debug_only : Option Bool := none

inductive Fragment where
  | ui (f : UIFragment)
  | filt (f : FilterFragment)
  | marking (f : MarkingFragment)
  | tty (f : TTYFragment)
  | dbg (f : DebugFragment)

/-- The dataclass `__dict__` of a fragment: every field of its group is
present, at the explicitly passed value or at the group's default. -/
def fragDict : Fragment → CfgField → Option CfgValue
  | .ui f, .with_text => some (.b (f.with_text.getD true))
  | .ui f, .with_trivial => some (.b (f.with_trivial.getD false))
  | .ui f, .close_pars_early => some (.b (f.close_pars_early.getD true))
  | .ui f, .print_with_color => some (.b (f.print_with_color.getD true))
  | .ui f, .color_legend => some (.b (f.color_legend.getD true))
  | .ui f, .dotted => some (.b (f.dotted.getD false))
  | .ui f, .column_width => some (.i (f.column_width.getD 100))
  | .ui f, .indent_size => some (.i (f.indent_size.getD 4))
  | .ui _, _ => none
  | .filt f, .excluded_types => some (.strs (f.excluded_types.getD none))
  | .filt f, .only_types => some (.strs (f.only_types.getD none))
  | .filt _, _ => none
  | .marking f, .definition_nodes => some (.nodes (f.definition_nodes.getD none))
  | .marking f, .usage_nodes => some (.nodes (f.usage_nodes.getD none))
  | .marking f, .undefined_usage_nodes => some (.nodes (f.undefined_usage_nodes.getD none))
  | .marking _, _ => none
  | .tty f, .use_pager => some (.b (f.use_pager.getD false))
  | .tty _, _ => none
  | .dbg f, .debug => some (.b (f.debug.getD false))
  | .dbg f, .debug_only => some (.b (f.debug_only.getD false))
  | .dbg _, _ => none

/-- Only the explicitly passed fields of a fragment (the claim's
"explicitly-set fields"). -/
def fragExplicit : Fragment → CfgField → Option CfgValue
  | .ui f, .with_text => f.with_text.map .b
  | .ui f, .with_trivial => f.with_trivial.map .b
  | .ui f, .close_pars_early => f.close_pars_early.map .b
  | .ui f, .print_with_color => f.print_with_color.map .b
  | .ui f, .color_legend => f.color_legend.map .b
  | .ui f, .dotted => f.dotted.map .b
  | .ui f, .column_width => f.column_width.map .i
  | .ui f, .indent_size => f.indent_size.map .i
  | .ui _, _ => none
  | .filt f, .excluded_types => f.excluded_types.map .strs
  | .filt f, .only_types => f.only_types.map .strs
  | .filt _, _ => none
  | .marking f, .definition_nodes => f.definition_nodes.map .nodes
  | .marking f, .usage_nodes => f.usage_nodes.map .nodes
  | .marking f, .undefined_usage_nodes => f.undefined_usage_nodes.map .nodes
  | .marking _, _ => none
  | .tty f, .use_pager => f.use_pager.map .b
  | .tty _, _ => none
  | .dbg f, .debug => f.debug.map .b
  | .dbg f, .debug_only => f.debug_only.map .b
  | .dbg _, _ => none

/-- An effective configuration as its full field dictionary. -/
abbrev CfgDict := CfgField → CfgValue

/-- The `_CombinedConfig()` defaults (first use). -/
def defaultDict : CfgDict
  | .with_text => .b true
  | .with_trivial => .b false
  | .close_pars_early => .b true
  | .print_with_color => .b true
  | .color_legend => .b true
  | .dotted => .b false
  | .column_width => .i 100
  | .indent_size => .i 4
  | .excluded_types => .strs none
  | .only_types => .strs none
  | .definition_nodes => .nodes none
  | .usage_nodes => .nodes none
  | .undefined_usage_nodes => .nodes none
  | .use_pager => .b false
  | .debug => .b false
  | .debug_only => .b false

/-- One `dict.__or__` step: the fragment's dict overwrites exactly its keys. -/
def dictOr (d : CfgDict) (f : Fragment) : CfgDict :=
  fun k => (fragDict f k).getD (d k)

/-- `PrettySitter.configure`: left fold of `dict.__or__` over the fragments,
starting from the prior effective configuration. -/
def configure (prior : CfgDict) (frags : List Fragment) : CfgDict :=
  frags.foldl dictOr prior

/-- Modelled from the claim's words: overlay only the explicitly-set fields
of each fragment, later fragments winning. -/
def specOverlay (d : CfgDict) (f : Fragment) : CfgDict :=
  fun k => (fragExplicit f k).getD (d k)

def specMerge (prior : CfgDict) (frags : List Fragment) : CfgDict :=
  frags.foldl specOverlay prior

/-- The value contributed for field `k` by the last fragment whose group
carries `k`, when one exists. -/
def lastContribution (k : CfgField) : List Fragment → Option CfgValue
  | [] => none
  | f :: fs =>
      match lastContribution k fs with
      | some v => some v
      | none => fragDict f k

/-! ### Auxiliary predicates for the claims -/

mutual
/-- Some strict descendant of the node has its type in the allow-list
(the relation the claim C4 describes for nodes with children). -/
def descendantTyped (only : List String) : PNode → Bool
  | .node _ _ _ _ cs => forestHasTyped only cs
def forestHasTyped (only : List String) : PForest → Bool
  | .nil => false
  | .cons _ m t => only.contains m.ty || descendantTyped only m || forestHasTyped only t
end

mutual
/-- Some childless node of the subtree (the node itself when childless) has
its type in the allow-list. -/
def leafTypedIn (only : List String) : PNode → Bool
  | .node t _ _ _ .nil => only.contains t
  | .node _ _ _ _ (.cons f h r) => forestLeafTyped only (.cons f h r)
def forestLeafTyped (only : List String) : PForest → Bool
  | .nil => false
  | .cons _ m t => leafTypedIn only m || forestLeafTyped only t
end

/-- A character that can neither begin, extend nor complete a match of
`color_regex` (used to reason about appended padding). -/
def safeChar (c : Char) : Bool :=
  !(c = '\x1b' || c = '[' || c = 'm' || isParamChar c)

/-! ### The claims, as stated -/

/-- Claim C1 as stated: `configure` overlays onto the prior configuration
only the fields each fragment explicitly set; every field not explicitly set
by any fragment retains its prior value (later fragments win). -/
def mergeClaim : Prop :=
  ∀ (prior : CfgDict) (frags : List Fragment) (k : CfgField),
    configure prior frags k = specMerge prior frags k

/-- Claim C3 as stated: `_column` always yields a padded line whose
style-stripped length is the configured width (width+2 when dotted), unless
the unpadded stripped header already exceeds that width, in which case the
header is emitted unpadded. -/
def columnClaim : Prop :=
  ∀ (cfg : CombinedConfig) (text : String), ∃ s,
    column cfg text = .ok s ∧
    (((((uncolor text).length : Int) > cfg.column_width + (if cfg.dotted then 2 else 0)) →
        s = text) ∧
     ((((uncolor text).length : Int) ≤ cfg.column_width + (if cfg.dotted then 2 else 0)) →
        ((uncolor s).length : Int) = cfg.column_width + (if cfg.dotted then 2 else 0)))

/-- Claim C4 as stated: with an allow-list configured, a childless node is
printworthy iff its type is listed, and a node with children is printworthy
iff some descendant transitively has its type in the list. -/
def inclusionClaim : Prop :=
  ∀ (cfg : CombinedConfig) (only : List String), cfg.only_types = some only →
    ∀ n : PNode,
      (n.children = .nil → (printworthy cfg n = true ↔ only.contains n.ty = true)) ∧
      (n.children ≠ .nil → (printworthy cfg n = true ↔ descendantTyped only n = true))

/-- Claim C5 as stated: for every tree and configuration, stripping the style
sequences from the complete color-enabled output yields the complete
color-disabled output. -/
def roundTripClaim : Prop :=
  ∀ (cfg : CombinedConfig) (root : PNode),
    (pprintOut { cfg with print_with_color := false } root).1 =
      ((pprintOut { cfg with print_with_color := true } root).1).map uncolor

/-- Claim C6 as stated: a single root leaf whose text equals its type tag,
rendered under default options, emits no output lines. -/
def trivialRootClaim : Prop :=
  ∀ (ty : String) (named : Bool) (row : Nat), nodeText ty = ty →
    (pprintOut defaultConfig (.node ty named row ty .nil)).1 = []

/-- Claim C7 as stated: a non-printworthy node visited with debug tracing
emits exactly one diagnostic line, whose quoted-text field is truncated to
the first 12 characters plus an ellipsis whenever the quote-escaped text is
longer than 12 characters, and is the full text otherwise. -/
def debugTruncationClaim : Prop :=
  (∀ (cfg : CombinedConfig) (n : PNode) (attr : Option String) (depth : Nat) (endStr : String),
      cfg.debug = true → printworthy cfg n = false →
      (printNode cfg n attr depth endStr).1.length = 1) ∧
  (∀ s : String, truncText s =
    (if 12 < (escQuote s).length
     then ((⟨(escQuote s).data.take 12⟩ : String) ++ "...")
     else escQuote s))

/-- Claim C8 as stated: every `_print_node` call returns true iff it emitted
at least one line. -/
def returnValueClaim : Prop :=
  ∀ (cfg : CombinedConfig) (n : PNode) (attr : Option String) (depth : Nat) (endStr : String),
    ((printNode cfg n attr depth endStr).2 = .ok true ↔
      (printNode cfg n attr depth endStr).1 ≠ [])

/-! ### C1 — configuration merge -/

/-- C1 fails as stated: a fragment's dataclass dict carries every field of
its group, so `UIConfig()` (nothing explicitly set) still resets a prior
`with_trivial = True` back to the group default `False`. -/
theorem c1_counterexample : ¬ mergeClaim := by
  intro h
  have hh := h (fun _ => .b true) [.ui {}] .with_trivial
  simp [configure, specMerge, dictOr, specOverlay, fragDict, fragExplicit,
    List.foldl, Option.getD] at hh

/-- C1 (amended): `configure` overlays, for each fragment in order, all
fields of the fragment's option group — each at its explicitly passed value
or at the group's dataclass default — with later fragments winning on shared
groups; a field belonging to no fragment's group retains its prior value. -/
theorem c1_merge_group_overlay (prior : CfgDict) (frags : List Fragment) (k : CfgField) :
    configure prior frags k = (lastContribution k frags).getD (prior k) := by
  induction frags generalizing prior with
  | nil => rfl
  | cons f fs ih =>
      show configure (dictOr prior f) fs k = _
      rw [ih]
      cases hc : lastContribution k fs with
      | some v => simp [lastContribution, hc]
      | none => simp [lastContribution, hc, dictOr]

/-! ### C2 — scoped override restoration -/

/-- C2: `Colorer.persist` is a generator context manager without
`try/finally`; the prior boldworthy predicate is restored on the normal exit
but NOT when the enclosed body raises — there the override (here the constant
`False` predicate) is left in place, clobbering the prior constant-`True`
predicate. -/
theorem c2_persist_not_restored_on_error :
    (persistRun false (fun st => ((BodyOutcome.raised : BodyOutcome Unit), st))
        ⟨fun _ => true⟩).2.boldworthy "x" = false ∧
    (persistRun false (fun st => (BodyOutcome.ok (), st))
        ⟨fun _ => true⟩).2.boldworthy "x" = true :=
  ⟨rfl, rfl⟩

/-! ### C10 — duplicate Colorer equivalence -/

/-- C10: for every palette color name, text and boldworthy predicate, the
standalone module's brush and the main module's brush (called with no
explicit bold override) produce the same styled string — including the same
error on an undefined name — and the two modules' style stripping agrees on
every string. -/
theorem c10_colorer_equivalence (bw : String → Bool) (item text s : String) :
    csColorBrush bw item text = psColorBrush bw item text none ∧
    csUncolor s = uncolor s :=
  ⟨rfl, rfl⟩

/-! ### Counterexamples C3–C8 -/

/-- C3 fails as stated: with the dotted fill configured, `_column` evaluates
`Colorer.gray(...)` on the class, whose metaclass has no `__getattr__`, so
the call raises `AttributeError` and no padded line exists at all. -/
theorem c3_counterexample : ¬ columnClaim := by
  intro h
  obtain ⟨s, hs, -⟩ := h { defaultConfig with dotted := true } "ab"
  simp [column] at hs

/-- C4 fails as stated: with allow-list `["x"]`, the childless node of type
`"x"` whose text is `"x"` is trivial, so under the default triviality filter
it is NOT printworthy although its type is listed. -/
theorem c4_counterexample : ¬ inclusionClaim := fun h =>
  absurd ((h { defaultConfig with only_types := some ["x"] } ["x"] rfl
      (.node "x" true 0 "x" .nil)).1 rfl) (by decide)

/-- C5 fails as stated: with the default configuration the color-enabled run
emits the legend line, which the color-disabled run lacks, so the stripped
complete outputs differ. -/
theorem c5_counterexample : ¬ roundTripClaim := fun h =>
  absurd (h defaultConfig (.node "t" true 0 "t" .nil)) (by decide)

/-- C6 fails as stated: under default options the color legend line is
emitted even though the trivial root contributes no render line. -/
theorem c6_counterexample : ¬ trivialRootClaim := fun h =>
  absurd (h "t" true 0 (by decide)) (by decide)

/-- C7 fails as stated: the code truncates only when the quote-escaped text
is longer than 15 characters, so a 13-character text is printed in full
rather than truncated to 12 characters plus an ellipsis. -/
theorem c7_counterexample : ¬ debugTruncationClaim := fun h =>
  absurd (h.2 "abcdefghijklm") (by decide)

/-- C8 fails as stated: with debug tracing enabled, a non-printworthy node
emits one diagnostic line yet `_print_node` returns `False`. -/
theorem c8_counterexample : ¬ returnValueClaim := fun h =>
  absurd (h { defaultConfig with debug := true } (.node "t" true 0 "t" .nil) none 0 "")
    (by decide)

/-! ### C4 — allow-list inclusion (amended) -/

theorem included_nil (cfg : CombinedConfig) (t : String) (nm : Bool) (r : Nat) (s : String) :
    included cfg (.node t nm r s .nil) =
      (match cfg.only_types with | none => true | some l => l.contains t) := rfl

theorem included_cons (cfg : CombinedConfig) (t : String) (nm : Bool) (r : Nat) (s : String)
    (f : Option String) (c : PNode) (rest : PForest) :
    included cfg (.node t nm r s (.cons f c rest)) =
      (match cfg.only_types with
       | none => true
       | some _ => anyIncluded cfg (.cons f c rest)) := rfl

theorem anyIncluded_cons (cfg : CombinedConfig) (f : Option String) (c : PNode) (rest : PForest) :
    anyIncluded cfg (.cons f c rest) = (included cfg c || anyIncluded cfg rest) := rfl

mutual
theorem included_eq_leafTypedIn (cfg : CombinedConfig) (only : List String)
    (h : cfg.only_types = some only) : ∀ n : PNode, included cfg n = leafTypedIn only n
  | .node t nm r s .nil => by rw [included_nil, h]; rfl
  | .node t nm r s (.cons f c rest) => by
      rw [included_cons, h]
      exact anyIncluded_eq_forestLeafTyped cfg only h (.cons f c rest)
theorem anyIncluded_eq_forestLeafTyped (cfg : CombinedConfig) (only : List String)
    (h : cfg.only_types = some only) : ∀ cs : PForest, anyIncluded cfg cs = forestLeafTyped only cs
  | .nil => rfl
  | .cons f c rest => by
      rw [anyIncluded_cons, included_eq_leafTypedIn cfg only h c,
        anyIncluded_eq_forestLeafTyped cfg only h rest]
      rfl
end

theorem printworthy_bool_identity (a b c d : Bool) :
    (!(a || !b || (!c && d))) = (!a && b && (c || !d)) := by
  revert a b c d
  decide

/-- C4 (amended): when an allow-list is configured, a childless node is
*included* iff its type is listed, and a node with children is included iff
at least one childless descendant transitively has its type in the
allow-list; printworthiness is inclusion together with non-exclusion and the
triviality filter. -/
theorem c4_included_amended (cfg : CombinedConfig) (only : List String)
    (h : cfg.only_types = some only) (n : PNode) :
    included cfg n = leafTypedIn only n ∧
    printworthy cfg n =
      (!excluded cfg n && included cfg n && (cfg.with_trivial || !trivialNode n)) :=
  ⟨included_eq_leafTypedIn cfg only h n,
   printworthy_bool_identity (excluded cfg n) (included cfg n) cfg.with_trivial (trivialNode n)⟩

theorem c4_included_amended_witness :
    ({ defaultConfig with only_types := some ["x"] } : CombinedConfig).only_types = some ["x"] ∧
    (included { defaultConfig with only_types := some ["x"] }
        (.node "r" true 0 "zz" (.cons none (.node "x" true 0 "q" .nil) .nil)) =
      leafTypedIn ["x"] (.node "r" true 0 "zz" (.cons none (.node "x" true 0 "q" .nil) .nil)) ∧
     printworthy { defaultConfig with only_types := some ["x"] }
        (.node "r" true 0 "zz" (.cons none (.node "x" true 0 "q" .nil) .nil)) =
      (!excluded { defaultConfig with only_types := some ["x"] }
          (.node "r" true 0 "zz" (.cons none (.node "x" true 0 "q" .nil) .nil)) &&
        included { defaultConfig with only_types := some ["x"] }
          (.node "r" true 0 "zz" (.cons none (.node "x" true 0 "q" .nil) .nil)) &&
        (({ defaultConfig with only_types := some ["x"] } : CombinedConfig).with_trivial ||
          !trivialNode (.node "r" true 0 "zz" (.cons none (.node "x" true 0 "q" .nil) .nil))))) :=
  ⟨rfl, c4_included_amended { defaultConfig with only_types := some ["x"] } ["x"] rfl
    (.node "r" true 0 "zz" (.cons none (.node "x" true 0 "q" .nil) .nil))⟩

/-! ### C8 — render return value (amended) -/

theorem emit_snd_no_pager (cfg : CombinedConfig) (t : String) (hup : cfg.use_pager = false) :
    (emit cfg t).2 = .ok () := by
  unfold emit printLine
  rw [hup]
  by_cases hf : (cfg.debug_only && !matchesDebug t) = true <;> simp [hf]

theorem emit_pair_no_pager (cfg : CombinedConfig) (t : String) (hup : cfg.use_pager = false) :
    emit cfg t = ((emit cfg t).1, .ok ()) :=
  Prod.ext rfl (emit_snd_no_pager cfg t hup)

theorem emit_plain (cfg : CombinedConfig) (t : String) (hup : cfg.use_pager = false)
    (hdo : cfg.debug_only = false) :
    emit cfg t = ([if cfg.print_with_color then t else uncolor t], .ok ()) := by
  unfold emit printLine
  rw [hup, hdo]
  simp

mutual
theorem printNode_ok_result (cfg : CombinedConfig) (hdot : cfg.dotted = false)
    (hup : cfg.use_pager = false) :
    ∀ (n : PNode) (attr : Option String) (depth : Nat) (endStr : String),
      (printNode cfg n attr depth endStr).2 = .ok (printworthy cfg n)
  | .node ty nm row raw cs, attr, depth, endStr => by
      have hch : ∀ li, (printChildren cfg cs 0 li depth
          (psByNumber (boldworthy cfg) depth ")" ++ endStr)).2 = .ok () :=
        fun li => printChildren_ok_result cfg hdot hup cs 0 li depth
          (psByNumber (boldworthy cfg) depth ")" ++ endStr)
      by_cases hpw : printworthy cfg (.node ty nm row raw cs) = true
      · simp only [printNode, hpw, Bool.not_true, Bool.false_eq_true, if_false, column, hdot]
        cases hl : lastPW cfg cs with
        | some lastIdx =>
            have hc2 := hch lastIdx
            cases hcc : printChildren cfg cs 0 lastIdx depth
                (psByNumber (boldworthy cfg) depth ")" ++ endStr) with
            | mk cls r =>
                rw [hcc] at hc2
                simp only at hc2
                subst hc2
                simp only [hl, hcc]
                cases hdbg : cfg.debug
                all_goals cases hwt : cfg.with_text
                all_goals cases hcp : cfg.close_pars_early
                all_goals repeat' split
                all_goals simp_all [Prod.ext_iff, emit_snd_no_pager]
        | none =>
            simp only [hl]
            cases hdbg : cfg.debug
            all_goals cases hwt : cfg.with_text
            all_goals repeat' split
            all_goals simp_all [Prod.ext_iff, emit_snd_no_pager]
      · simp only [Bool.not_eq_true] at hpw
        simp only [printNode, hpw, Bool.not_false, if_true]
        cases hdbg : cfg.debug
        all_goals repeat' split
        all_goals simp_all [Prod.ext_iff, emit_snd_no_pager]

theorem printChildren_ok_result (cfg : CombinedConfig) (hdot : cfg.dotted = false)
    (hup : cfg.use_pager = false) :
    ∀ (cs : PForest) (i li depth : Nat) (endStr : String),
      (printChildren cfg cs i li depth endStr).2 = .ok ()
  | .nil, _, _, _, _ => rfl
  | .cons f c rest, i, li, depth, endStr => by
      simp only [printChildren]
      have h1 := printNode_ok_result cfg hdot hup c f (depth + 1)
        (if cfg.close_pars_early && i == li then endStr else "")
      cases hc : printNode cfg c f (depth + 1)
          (if cfg.close_pars_early && i == li then endStr else "") with
      | mk ls r =>
          rw [hc] at h1
          simp at h1
          subst h1
          have h2 := printChildren_ok_result cfg hdot hup rest (i + 1) li depth endStr
          cases hc2 : printChildren cfg rest (i + 1) li depth endStr with
          | mk ls2 r2 =>
              rw [hc2] at h2
              simp at h2
              subst h2
              rfl
end

theorem printNode_ok_val (cfg : CombinedConfig) :
    ∀ (n : PNode) (attr : Option String) (depth : Nat) (endStr : String) (b : Bool),
      (printNode cfg n attr depth endStr).2 = .ok b → b = printworthy cfg n
  | .node ty nm row raw cs, attr, depth, endStr, b => by
      intro h
      by_cases hpw : printworthy cfg (.node ty nm row raw cs) = true
      · rw [hpw]
        simp only [printNode, hpw, Bool.not_true, Bool.false_eq_true, if_false] at h
        repeat' split at h
        all_goals simp_all
      · simp only [Bool.not_eq_true] at hpw
        rw [hpw]
        simp only [printNode, hpw, Bool.not_false, if_true] at h
        repeat' split at h
        all_goals simp_all

theorem printNode_lines_iff (cfg : CombinedConfig) (hdbg : cfg.debug = false)
    (hdo : cfg.debug_only = false) (hdot : cfg.dotted = false)
    (hup : cfg.use_pager = false) :
    ∀ (n : PNode) (attr : Option String) (depth : Nat) (endStr : String),
      ((printNode cfg n attr depth endStr).1 ≠ [] ↔ printworthy cfg n = true)
  | .node ty nm row raw cs, attr, depth, endStr => by
      by_cases hpw : printworthy cfg (.node ty nm row raw cs) = true
      · rw [hpw]
        simp only [printNode, hpw, Bool.not_true, Bool.false_eq_true, if_false, hdbg,
          column, hdot, iff_true]
        cases hl : lastPW cfg cs with
        | some lastIdx =>
            cases hcc : printChildren cfg cs 0 lastIdx depth
                (psByNumber (boldworthy cfg) depth ")" ++ endStr) with
            | mk cls r =>
                cases hwt : cfg.with_text
                all_goals cases hcp : cfg.close_pars_early
                all_goals cases r
                all_goals repeat' split
                all_goals simp_all [emit_plain, Prod.ext_iff]
                all_goals intros
                all_goals try subst_vars
                all_goals try simp_all
        | none =>
            cases hwt : cfg.with_text
            all_goals repeat' split
            all_goals simp_all [emit_plain, Prod.ext_iff]
            all_goals intros
            all_goals try subst_vars
            all_goals try simp_all
      · simp only [Bool.not_eq_true] at hpw
        rw [hpw]
        simp [printNode, hpw, hdbg]

/-- C8 (amended): a render call's return value reports whether the node was
printworthy — every normal (non-raising) return is `printworthy(n)` — and it
coincides with "at least one line was emitted" only when debug tracing, the
debug-only filter, the dotted fill and the pager are all disabled (under the
pager `_print` raises instead of returning); the parent recomputes
`printworthy` directly on its children (`lastPW`) rather than consuming this
return value. -/
theorem c8_return_value (cfg : CombinedConfig) (n : PNode) (attr : Option String)
    (depth : Nat) (endStr : String) :
    (∀ b, (printNode cfg n attr depth endStr).2 = .ok b → b = printworthy cfg n) ∧
    (cfg.debug = false → cfg.debug_only = false → cfg.dotted = false →
      cfg.use_pager = false →
      (printNode cfg n attr depth endStr).2 = .ok (printworthy cfg n) ∧
      ((printNode cfg n attr depth endStr).1 ≠ [] ↔ printworthy cfg n = true)) :=
  ⟨fun b h => printNode_ok_val cfg n attr depth endStr b h,
   fun hdbg hdo hdot hup => ⟨printNode_ok_result cfg hdot hup n attr depth endStr,
     printNode_lines_iff cfg hdbg hdo hdot hup n attr depth endStr⟩⟩

theorem c8_return_value_witness :
    defaultConfig.debug = false ∧ defaultConfig.debug_only = false ∧
    defaultConfig.dotted = false ∧ defaultConfig.use_pager = false ∧
    ((printNode defaultConfig (.node "x" true 0 "hi" .nil) none 0 "").2 =
        .ok (printworthy defaultConfig (.node "x" true 0 "hi" .nil)) ∧
      ((printNode defaultConfig (.node "x" true 0 "hi" .nil) none 0 "").1 ≠ [] ↔
        printworthy defaultConfig (.node "x" true 0 "hi" .nil) = true)) :=
  ⟨rfl, rfl, rfl, rfl,
   (c8_return_value defaultConfig (.node "x" true 0 "hi" .nil) none 0 "").2 rfl rfl rfl rfl⟩

/-! ### C9 — mark-group precedence -/

theorem resolveMark_eq (cfg : CombinedConfig) (n : PNode) :
    resolveMark cfg n =
      (if isDefinition cfg n then some ("Definitions", 91)
       else if isUsage cfg n then some ("Usages", 92)
       else if isUndefinedUsage cfg n then some ("Undefined", 93)
       else none) := by
  have e1 : markMatches n ("Definitions", 91, cfg.definition_nodes) = isDefinition cfg n := rfl
  have e2 : markMatches n ("Usages", 92, cfg.usage_nodes) = isUsage cfg n := rfl
  have e3 : markMatches n ("Undefined", 93, cfg.undefined_usage_nodes) =
      isUndefinedUsage cfg n := rfl
  unfold resolveMark marksList
  rw [List.find?_cons, e1]
  cases hd : isDefinition cfg n with
  | true => rfl
  | false =>
      rw [List.find?_cons, e2]
      cases hu : isUsage cfg n with
      | true => rfl
      | false =>
          rw [List.find?_cons, e3]
          cases hud : isUndefinedUsage cfg n with
          | true => rfl
          | false => rfl

/-- C9: for every node contained in at least one mark group, both the header
color and the text color resolved by the renderer are the color of the first
group in registration order (Definitions 91, then Usages 92, then Undefined
93) whose node set contains it — the mark color overrides the trivial/leaf
based defaults (94/37 and 96/37). -/
theorem c9_mark_precedence (cfg : CombinedConfig) (n : PNode) (lbl : String) (c : Nat)
    (h : resolveMark cfg n = some (lbl, c)) :
    obtainFirstColor cfg n = c ∧ obtainSecondColor cfg n = c := by
  rw [resolveMark_eq] at h
  by_cases hd : isDefinition cfg n = true
  · simp [hd] at h
    simp [obtainFirstColor, obtainSecondColor, hd, h.2]
  · simp only [Bool.not_eq_true] at hd
    by_cases hu : isUsage cfg n = true
    · simp [hd, hu] at h
      simp [obtainFirstColor, obtainSecondColor, hd, hu, h.2]
    · simp only [Bool.not_eq_true] at hu
      by_cases hud : isUndefinedUsage cfg n = true
      · simp [hd, hu, hud] at h
        simp [obtainFirstColor, obtainSecondColor, hd, hu, hud, h.2]
      · simp only [Bool.not_eq_true] at hud
        simp [hd, hu, hud] at h

theorem c9_mark_precedence_witness :
    resolveMark
        { defaultConfig with
            definition_nodes := some [.node "x" true 0 "q" .nil],
            usage_nodes := some [.node "x" true 0 "q" .nil] }
        (.node "x" true 0 "q" .nil) = some ("Definitions", 91) ∧
    (obtainFirstColor
        { defaultConfig with
            definition_nodes := some [.node "x" true 0 "q" .nil],
            usage_nodes := some [.node "x" true 0 "q" .nil] }
        (.node "x" true 0 "q" .nil) = 91 ∧
      obtainSecondColor
        { defaultConfig with
            definition_nodes := some [.node "x" true 0 "q" .nil],
            usage_nodes := some [.node "x" true 0 "q" .nil] }
        (.node "x" true 0 "q" .nil) = 91) :=
  ⟨by decide,
   c9_mark_precedence
     { defaultConfig with
         definition_nodes := some [.node "x" true 0 "q" .nil],
         usage_nodes := some [.node "x" true 0 "q" .nil] }
     (.node "x" true 0 "q" .nil) "Definitions" 91 (by decide)⟩

/-! ### C6/C7 — trivial root scenario, debug truncation (amended) -/

theorem strAppend_assoc (a b c : String) : (a ++ b) ++ c = a ++ (b ++ c) := by
  show (⟨(a.data ++ b.data) ++ c.data⟩ : String) = ⟨a.data ++ (b.data ++ c.data)⟩
  rw [List.append_assoc]

theorem stripParamsPrefix_params (ps : List Char) (hp : ∀ c ∈ ps, isParamChar c = true)
    (r : List Char) : stripParamsPrefix (ps ++ 'm' :: r) = some r := by
  induction ps with
  | nil => rfl
  | cons c cs ih =>
      have hc := hp c (by simp)
      have hm : c ≠ 'm' := by
        intro e
        subst e
        simp [isParamChar] at hc
      simp only [List.cons_append, stripParamsPrefix, if_neg hm, hc, if_true]
      exact ih (fun d hd => hp d (by simp [hd]))

theorem matchesDebug_of_colorPrefix (t : String) (ps r : List Char)
    (hp : ∀ c ∈ ps, isParamChar c = true)
    (hd : t.data = '\x1b' :: '[' :: ps ++ 'm' :: r)
    (hpre : "DEBUG:".data.isPrefixOf r = true) :
    matchesDebug t = true := by
  unfold matchesDebug
  rw [hd]
  rw [show stripColorPrefix ('\x1b' :: '[' :: ps ++ 'm' :: r) =
      stripParamsPrefix (ps ++ 'm' :: r) from rfl]
  rw [stripParamsPrefix_params ps hp r]
  simp [hpre]

theorem isPrefixOf_append_right (l s t : List Char) (h : l.isPrefixOf s = true) :
    l.isPrefixOf (s ++ t) = true := by
  rw [List.isPrefixOf_iff_prefix] at h ⊢
  exact h.trans (List.prefix_append s t)

/-- Every line painted gray whose text begins with `DEBUG:` passes the
debug-only output filter, bold or not. -/
theorem matchesDebug_gray_append (bw : String → Bool) (s rest : String)
    (hpre : "DEBUG:".data.isPrefixOf s.data = true) :
    matchesDebug (psGray bw s ++ rest) = true := by
  unfold psGray psApply
  cases hb : bw s with
  | true =>
      simp only [Option.getD, hb, if_true]
      refine matchesDebug_of_colorPrefix _ ['1', ';', '4', ';', '3', '7']
        (s.data ++ ("\x1b[0m" ++ rest).data) (by decide) ?_ ?_
      · show (("\x1b[" ++ String.intercalate ";" (List.map toString (1 :: 4 :: [] ++ [37]))
            ++ "m" ++ s ++ "\x1b[0m") ++ rest).data = _
        rw [show String.intercalate ";" (List.map toString (1 :: 4 :: [] ++ [37])) = "1;4;37"
          from by decide]
        show (("\x1b[" ++ "1;4;37" ++ "m").data ++ s.data ++ "\x1b[0m".data) ++ rest.data = _
        simp [List.append_assoc]
      · exact isPrefixOf_append_right _ _ _ hpre
  | false =>
      simp only [Option.getD, hb, if_false]
      refine matchesDebug_of_colorPrefix _ ['3', '7']
        (s.data ++ ("\x1b[0m" ++ rest).data) (by decide) ?_ ?_
      · show (("\x1b[" ++ String.intercalate ";" (List.map toString (([] : List Nat) ++ [37]))
            ++ "m" ++ s ++ "\x1b[0m") ++ rest).data = _
        rw [show String.intercalate ";" (List.map toString (([] : List Nat) ++ [37])) = "37"
          from by decide]
        show (("\x1b[" ++ "37" ++ "m").data ++ s.data ++ "\x1b[0m".data) ++ rest.data = _
        simp [List.append_assoc]
      · exact isPrefixOf_append_right _ _ _ hpre

theorem matchesDebug_skipped (cfg : CombinedConfig) (n : PNode) (depth : Nat) (endStr : String) :
    matchesDebug (skippedLineRaw cfg n depth endStr) = true := by
  unfold skippedLineRaw
  simp only [strAppend_assoc]
  exact matchesDebug_gray_append (boldworthy cfg) _ _ (by decide)

/-- C6 (amended): a single root leaf whose (escape-normalized) text equals
its type tag renders no node line under default options; the complete default
output is exactly the legend line, and with color (hence the legend) disabled
the output is empty. -/
theorem c6_trivial_root (ty : String) (named : Bool) (row : Nat) (h : nodeText ty = ty) :
    printNode defaultConfig (.node ty named row ty .nil) none 0 "" = ([], .ok false) ∧
    (pprintOut defaultConfig (.node ty named row ty .nil)).1 = legendLines defaultConfig ∧
    (pprintOut { defaultConfig with print_with_color := false }
        (.node ty named row ty .nil)).1 = [] := by
  have hpw : printworthy defaultConfig (.node ty named row ty .nil) = false := by
    simp [printworthy, excluded, trivialNode, included_nil, defaultConfig, PNode.ty, PNode.raw, h]
  have hnode : printNode defaultConfig (.node ty named row ty .nil) none 0 "" =
      ([], .ok false) := by
    have hd1 : defaultConfig.debug = false := rfl
    simp only [printNode, hpw, Bool.not_false, if_true]
    rw [hd1]
    simp
  have hpw2 : printworthy { defaultConfig with print_with_color := false }
      (.node ty named row ty .nil) = false := hpw
  have hnode2 : printNode { defaultConfig with print_with_color := false }
      (.node ty named row ty .nil) none 0 "" = ([], .ok false) := by
    have hd2 : ({ defaultConfig with print_with_color := false } : CombinedConfig).debug =
        false := rfl
    simp only [printNode, hpw2, Bool.not_false, if_true]
    rw [hd2]
    simp
  refine ⟨hnode, ?_, ?_⟩
  · simp [pprintOut, hnode]
  · simp [pprintOut, hnode2, legendLines]

theorem c6_trivial_root_witness :
    nodeText "t" = "t" ∧
    (printNode defaultConfig (.node "t" true 0 "t" .nil) none 0 "" = ([], .ok false) ∧
      (pprintOut defaultConfig (.node "t" true 0 "t" .nil)).1 = legendLines defaultConfig ∧
      (pprintOut { defaultConfig with print_with_color := false }
          (.node "t" true 0 "t" .nil)).1 = []) :=
  ⟨by decide, c6_trivial_root "t" true 0 (by decide)⟩

/-- C7 (amended): for every non-printworthy node visited with debug tracing
enabled, without the pager exactly one diagnostic line — the skipped-trace
line, stripped when color output is disabled — reaches the sink, while with
the pager `_print` raises `AttributeError` on its bound-method attribute
write and nothing is emitted; the quoted-text field of that line is the
first 12 characters of the quote-escaped text followed by an ellipsis
exactly when that text is longer than 15 characters (not 12), and the full
text otherwise. -/
theorem c7_debug_truncation (cfg : CombinedConfig) (n : PNode) (attr : Option String)
    (depth : Nat) (endStr : String) (hdbg : cfg.debug = true)
    (hpw : printworthy cfg n = false) :
    (cfg.use_pager = false →
      (printNode cfg n attr depth endStr).1 =
        [if cfg.print_with_color = true then skippedLineRaw cfg n depth endStr
         else uncolor (skippedLineRaw cfg n depth endStr)] ∧
      (printNode cfg n attr depth endStr).1.length = 1) ∧
    (cfg.use_pager = true →
      printNode cfg n attr depth endStr =
        ([], .error "AttributeError: \x27method\x27 object has no attribute \x27pager_lines\x27")) ∧
    (∀ s : String, 15 < (escQuote s).length →
      truncText s = (⟨(escQuote s).data.take 12⟩ : String) ++ "...") ∧
    (∀ s : String, (escQuote s).length ≤ 15 → truncText s = escQuote s) := by
  cases n with
  | node ty nm row raw cs =>
      have hm := matchesDebug_skipped cfg (.node ty nm row raw cs) depth endStr
      refine ⟨?_, ?_, ?_, ?_⟩
      · intro hup
        have hem : emit cfg (skippedLineRaw cfg (.node ty nm row raw cs) depth endStr) =
            ([if cfg.print_with_color = true
              then skippedLineRaw cfg (.node ty nm row raw cs) depth endStr
              else uncolor (skippedLineRaw cfg (.node ty nm row raw cs) depth endStr)],
             .ok ()) := by
          unfold emit printLine
          rw [hup]
          simp [hm]
        constructor
        · simp [printNode, hpw, hdbg, hem]
        · simp [printNode, hpw, hdbg, hem]
      · intro hup
        have hem : emit cfg (skippedLineRaw cfg (.node ty nm row raw cs) depth endStr) =
            ([], .error
              "AttributeError: \x27method\x27 object has no attribute \x27pager_lines\x27") := by
          unfold emit printLine
          rw [hup]
          simp [hm]
        simp [printNode, hpw, hdbg, hem]
      · intro s hs
        simp [truncText, hs]
      · intro s hs
        simp [truncText, Nat.not_lt.mpr hs]

theorem c7_debug_truncation_witness :
    ({ defaultConfig with debug := true } : CombinedConfig).debug = true ∧
    printworthy { defaultConfig with debug := true } (.node "t" true 0 "t" .nil) = false ∧
    ({ defaultConfig with debug := true } : CombinedConfig).use_pager = false ∧
    ((printNode { defaultConfig with debug := true } (.node "t" true 0 "t" .nil) none 0 "").1 =
        [if ({ defaultConfig with debug := true } : CombinedConfig).print_with_color = true
         then skippedLineRaw { defaultConfig with debug := true } (.node "t" true 0 "t" .nil) 0 ""
         else uncolor
           (skippedLineRaw { defaultConfig with debug := true } (.node "t" true 0 "t" .nil) 0 "")] ∧
      (printNode { defaultConfig with debug := true }
          (.node "t" true 0 "t" .nil) none 0 "").1.length = 1) :=
  ⟨rfl, by decide, rfl,
   (c7_debug_truncation { defaultConfig with debug := true } (.node "t" true 0 "t" .nil)
     none 0 "" rfl (by decide)).1 rfl⟩

/-! ### C5 — strip round-trip (amended) -/
mutual
theorem included_pwc (cfg : CombinedConfig) (b : Bool) :
    ∀ n : PNode, included { cfg with print_with_color := b } n = included cfg n
  | .node t nm r s .nil => rfl
  | .node t nm r s (.cons f c rest) => by
      rw [included_cons, included_cons, anyIncluded_pwc cfg b (.cons f c rest)]
theorem anyIncluded_pwc (cfg : CombinedConfig) (b : Bool) :
    ∀ cs : PForest, anyIncluded { cfg with print_with_color := b } cs = anyIncluded cfg cs
  | .nil => rfl
  | .cons f c rest => by
      rw [anyIncluded_cons, anyIncluded_cons, included_pwc cfg b c, anyIncluded_pwc cfg b rest]
end

theorem printworthy_pwc (cfg : CombinedConfig) (b : Bool) (n : PNode) :
    printworthy { cfg with print_with_color := b } n = printworthy cfg n := by
  unfold printworthy
  rw [show excluded { cfg with print_with_color := b } n = excluded cfg n from rfl,
    included_pwc cfg b n,
    show ({ cfg with print_with_color := b } : CombinedConfig).with_trivial = cfg.with_trivial
      from rfl]

theorem lastPW_pwc (cfg : CombinedConfig) (b : Bool) :
    ∀ cs : PForest, lastPW { cfg with print_with_color := b } cs = lastPW cfg cs
  | .nil => rfl
  | .cons f c rest => by
      rw [lastPW, lastPW, lastPW_pwc cfg b rest, printworthy_pwc cfg b c]

theorem boldworthy_pwc (cfg : CombinedConfig) (b : Bool) :
    boldworthy { cfg with print_with_color := b } = boldworthy cfg := rfl

theorem column_pwc (cfg : CombinedConfig) (b : Bool) (t : String) :
    column { cfg with print_with_color := b } t = column cfg t := rfl

theorem indentStr_pwc (cfg : CombinedConfig) (b : Bool) (d : Nat) (t : String) :
    indentStr { cfg with print_with_color := b } d t = indentStr cfg d t := rfl

theorem skippedLineRaw_pwc (cfg : CombinedConfig) (b : Bool) (n : PNode) (d : Nat) (e : String) :
    skippedLineRaw { cfg with print_with_color := b } n d e = skippedLineRaw cfg n d e := rfl

theorem enteredLineRaw_pwc (cfg : CombinedConfig) (b : Bool) (n : PNode) (d : Nat) (e : String) :
    enteredLineRaw { cfg with print_with_color := b } n d e = enteredLineRaw cfg n d e := rfl

theorem firstPartStr_pwc (cfg : CombinedConfig) (b : Bool) (n : PNode) (a : Option String)
    (d : Nat) : firstPartStr { cfg with print_with_color := b } n a d = firstPartStr cfg n a d :=
  rfl

theorem secondPartStr_pwc (cfg : CombinedConfig) (b : Bool) (n : PNode) :
    secondPartStr { cfg with print_with_color := b } n = secondPartStr cfg n := rfl

theorem printLine_color (cfg0 cfg1 : CombinedConfig) (t : String)
    (hdo : cfg0.debug_only = cfg1.debug_only)
    (hupg : cfg0.use_pager = cfg1.use_pager)
    (h0 : cfg0.print_with_color = false) (h1 : cfg1.print_with_color = true) :
    printLine cfg0 t = (printLine cfg1 t).map (List.map uncolor) := by
  unfold printLine
  rw [hdo, hupg, h0, h1]
  by_cases hf : (cfg1.debug_only && !matchesDebug t) = true
  · simp [hf, Except.map]
  · by_cases hp : cfg1.use_pager = true <;> simp [hf, hp, Except.map]

theorem emit_color (cfg0 cfg1 : CombinedConfig) (t : String)
    (hdo : cfg0.debug_only = cfg1.debug_only)
    (hupg : cfg0.use_pager = cfg1.use_pager)
    (h0 : cfg0.print_with_color = false) (h1 : cfg1.print_with_color = true) :
    emit cfg0 t = ((emit cfg1 t).1.map uncolor, (emit cfg1 t).2) := by
  unfold emit
  rw [printLine_color cfg0 cfg1 t hdo hupg h0 h1]
  cases printLine cfg1 t <;> simp [Except.map]

set_option maxHeartbeats 1600000 in
mutual
theorem printNode_color_indep (cfg : CombinedConfig) :
    ∀ (n : PNode) (attr : Option String) (depth : Nat) (endStr : String),
      printNode { cfg with print_with_color := false } n attr depth endStr =
        ((printNode { cfg with print_with_color := true } n attr depth endStr).1.map uncolor,
         (printNode { cfg with print_with_color := true } n attr depth endStr).2)
  | .node ty nm row raw cs, attr, depth, endStr => by
      have hpl : ∀ t : String, emit { cfg with print_with_color := false } t =
          ((emit { cfg with print_with_color := true } t).1.map uncolor,
           (emit { cfg with print_with_color := true } t).2) :=
        fun t => emit_color _ _ t rfl rfl rfl rfl
      have hch0 := fun lastIdx => printChildren_color_indep cfg cs 0 lastIdx depth
        (psByNumber (boldworthy cfg) depth ")" ++ endStr)
      simp only [printNode, printworthy_pwc, skippedLineRaw_pwc, enteredLineRaw_pwc,
        firstPartStr_pwc, secondPartStr_pwc, boldworthy_pwc, column_pwc, indentStr_pwc,
        lastPW_pwc]
      generalize hB : ({ cfg with print_with_color := true } : CombinedConfig) = cfgB
      rw [hB] at hpl hch0
      generalize hA : ({ cfg with print_with_color := false } : CombinedConfig) = cfgA
      rw [hA] at hpl hch0
      simp only [hpl, hch0]
      cases hdbg : cfg.debug
      all_goals cases hwt : cfg.with_text
      all_goals cases hcp : cfg.close_pars_early
      all_goals cases hc1 : column cfg (firstPartStr cfg (PNode.node ty nm row raw cs) attr depth)
      all_goals cases hc2 : column cfg (firstPartStr cfg (PNode.node ty nm row raw cs) attr depth ++ (psByNumber (boldworthy cfg) depth ")" ++ endStr))
      all_goals repeat' split
      all_goals simp_all [List.map_append]

theorem printChildren_color_indep (cfg : CombinedConfig) :
    ∀ (cs : PForest) (i li depth : Nat) (endStr : String),
      printChildren { cfg with print_with_color := false } cs i li depth endStr =
        ((printChildren { cfg with print_with_color := true } cs i li depth endStr).1.map uncolor,
         (printChildren { cfg with print_with_color := true } cs i li depth endStr).2)
  | .nil, _, _, _, _ => rfl
  | .cons f c rest, i, li, depth, endStr => by
      have hn := printNode_color_indep cfg c f (depth + 1)
        (if cfg.close_pars_early && i == li then endStr else "")
      have hr := printChildren_color_indep cfg rest (i + 1) li depth endStr
      simp only [printChildren,
        show ({ cfg with print_with_color := false } : CombinedConfig).close_pars_early =
          cfg.close_pars_early from rfl,
        show ({ cfg with print_with_color := true } : CombinedConfig).close_pars_early =
          cfg.close_pars_early from rfl]
      rw [hn, hr]
      cases hn1 : printNode { cfg with print_with_color := true } c f (depth + 1)
          (if cfg.close_pars_early && i == li then endStr else "") with
      | mk ls1 r1 =>
          cases hr1 : printChildren { cfg with print_with_color := true } rest (i + 1) li depth
              endStr with
          | mk ls2 r2 =>
              cases r1 <;> simp [List.map_append]
end



theorem legendLines_color (cfg : CombinedConfig) (hleg : cfg.color_legend = false) :
    legendLines { cfg with print_with_color := false } = [] ∧
    legendLines { cfg with print_with_color := true } = [] := by
  constructor <;> simp [legendLines, hleg]

/-- C5 (amended): for every tree and configuration with the color legend
disabled, stripping the style sequences from each line of the color-enabled
output yields exactly the color-disabled output, and both runs end
identically (same return value or same exception); with the legend enabled,
the color run alone emits the legend line, which breaks the round trip. -/
theorem c5_roundtrip (cfg : CombinedConfig) (root : PNode) (hleg : cfg.color_legend = false) :
    (pprintOut { cfg with print_with_color := false } root).1 =
      ((pprintOut { cfg with print_with_color := true } root).1).map uncolor ∧
    (pprintOut { cfg with print_with_color := false } root).2 =
      (pprintOut { cfg with print_with_color := true } root).2 := by
  have h := printNode_color_indep cfg root none 0 ""
  cases h1 : printNode { cfg with print_with_color := true } root none 0 "" with
  | mk ls r =>
      rw [h1] at h
      simp only [pprintOut, h, h1]
      obtain ⟨hl0, hl1⟩ := legendLines_color cfg hleg
      rw [hl0, hl1]
      simp

theorem c5_roundtrip_witness :
    ({ defaultConfig with color_legend := false } : CombinedConfig).color_legend = false ∧
    ((pprintOut { { defaultConfig with color_legend := false } with print_with_color := false }
          (.node "t" true 0 "t" .nil)).1 =
        ((pprintOut { { defaultConfig with color_legend := false } with print_with_color := true }
            (.node "t" true 0 "t" .nil)).1).map uncolor ∧
      (pprintOut { { defaultConfig with color_legend := false } with print_with_color := false }
          (.node "t" true 0 "t" .nil)).2 =
        (pprintOut { { defaultConfig with color_legend := false } with print_with_color := true }
            (.node "t" true 0 "t" .nil)).2) :=
  ⟨rfl, c5_roundtrip { defaultConfig with color_legend := false } (.node "t" true 0 "t" .nil) rfl⟩

/-! ### C3 — column invariant (amended) -/

theorem safeChar_props (c : Char) (h : safeChar c = true) :
    c ≠ '\x1b' ∧ c ≠ '[' ∧ c ≠ 'm' ∧ isParamChar c = false := by
  simp only [safeChar, Bool.not_eq_true', Bool.or_eq_false_iff, decide_eq_false_iff_not] at h
  exact ⟨h.1.1.1, h.1.1.2, h.1.2, h.2⟩

theorem uncolorGo_all_safe (b : List Char) (hb : ∀ c ∈ b, safeChar c = true) :
    ∀ m : UMode, uncolorGo m b = uncolorGo m [] ++ b := by
  induction b with
  | nil => intro m; simp
  | cons c r ih =>
      intro m
      obtain ⟨h1, h2, h3, h4⟩ := safeChar_props c (hb c (by simp))
      have ihr := ih (fun d hd => hb d (by simp [hd]))
      cases m with
      | top => simp [uncolorGo, h1, ihr .top]
      | esc => simp [uncolorGo, h1, h2, ihr .top]
      | bracket ps => simp [uncolorGo, h1, h3, h4, ihr .top]

/-- `re.sub` leaves appended text untouched when no appended character can
begin, extend or complete an escape-sequence match. -/
theorem uncolorGo_append_safe (b : List Char) (hb : ∀ c ∈ b, safeChar c = true) :
    ∀ (a : List Char) (m : UMode), uncolorGo m (a ++ b) = uncolorGo m a ++ b := by
  intro a
  induction a with
  | nil => intro m; simpa using uncolorGo_all_safe b hb m
  | cons c a' ih =>
      intro m
      cases m with
      | top =>
          by_cases hc : c = '\x1b' <;>
            simp [uncolorGo, hc, ih .esc, ih .top]
      | esc =>
          by_cases hc1 : c = '['
          · subst hc1
            simp [uncolorGo, ih (.bracket [])]
          · by_cases hc2 : c = '\x1b'
            · subst hc2
              simp [uncolorGo, ih .esc]
            · simp [uncolorGo, hc1, hc2, ih .top]
      | bracket ps =>
          by_cases hc3 : c = '\x1b'
          · subst hc3
            simp [uncolorGo, isParamChar, ih .esc, List.append_assoc]
          · by_cases hc1 : c = 'm'
            · subst hc1
              simp [uncolorGo, ih .top]
            · by_cases hc2 : isParamChar c
              · simp [uncolorGo, hc1, hc2, hc3, ih (.bracket (ps ++ [c]))]
              · simp [uncolorGo, hc1, hc2, hc3, ih .top, List.append_assoc]

theorem uncolor_append_spaces (s : String) (k : Nat) :
    uncolor (s ++ (⟨List.replicate k ' '⟩ : String)) =
      uncolor s ++ (⟨List.replicate k ' '⟩ : String) := by
  show (⟨uncolorGo .top (s.data ++ List.replicate k ' ')⟩ : String) =
    ⟨uncolorGo .top s.data ++ List.replicate k ' '⟩
  rw [uncolorGo_append_safe (List.replicate k ' ')
    (fun c hc => by rw [List.eq_of_mem_replicate hc]; decide) s.data .top]

theorem strAppend_empty (s : String) : s ++ "" = s := by
  show (⟨s.data ++ []⟩ : String) = s
  rw [List.append_nil]

theorem strLength_append (a b : String) : (a ++ b).length = a.length + b.length := by
  show (a.data ++ b.data).length = a.data.length + b.data.length
  rw [List.length_append]

/-- C3 (amended): with the dotted fill configured, `_column` raises
`AttributeError` (the gray brush is looked up on the `Colorer` class, whose
`__getattr__` serves instances only) and no padded line is produced; without
it, the header is padded with spaces to exactly the configured width measured
on the style-stripped text, and a header already at or beyond the width is
emitted unpadded with no truncation. -/
theorem c3_column (cfg : CombinedConfig) (text : String) :
    (cfg.dotted = true →
      column cfg text =
        .error "AttributeError: type object \x27Colorer\x27 has no attribute \x27gray\x27") ∧
    (cfg.dotted = false →
      column cfg text =
        .ok (text ++ strRepeat ' ' (cfg.column_width - ((uncolor text).length : Int))) ∧
      (cfg.column_width ≤ ((uncolor text).length : Int) → column cfg text = .ok text) ∧
      (((uncolor text).length : Int) < cfg.column_width →
        (((uncolor (text ++ strRepeat ' '
            (cfg.column_width - ((uncolor text).length : Int)))).length : Int) =
          cfg.column_width))) := by
  refine ⟨fun h => by simp [column, h], fun h => ⟨by simp [column, h], ?_, ?_⟩⟩
  · intro hle
    have hk : strRepeat ' ' (cfg.column_width - ((uncolor text).length : Int)) = "" := by
      unfold strRepeat
      rw [Int.toNat_of_nonpos (by omega)]
      rfl
    simp [column, h, hk, strAppend_empty]
  · intro hlt
    have hrw : uncolor (text ++ strRepeat ' '
        (cfg.column_width - ((uncolor text).length : Int))) =
        uncolor text ++ strRepeat ' ' (cfg.column_width - ((uncolor text).length : Int)) :=
      uncolor_append_spaces text (cfg.column_width - ((uncolor text).length : Int)).toNat
    rw [hrw, strLength_append]
    have hlen : (strRepeat ' ' (cfg.column_width - ((uncolor text).length : Int))).length =
        (cfg.column_width - ((uncolor text).length : Int)).toNat := by
      show (List.replicate _ ' ').length = _
      rw [List.length_replicate]
    rw [hlen]
    have := Int.toNat_of_nonneg (a := cfg.column_width - ((uncolor text).length : Int))
      (by omega)
    omega

theorem c3_column_witness :
    column { defaultConfig with dotted := true } "ab" =
      .error "AttributeError: type object \x27Colorer\x27 has no attribute \x27gray\x27" ∧
    column defaultConfig "ab" =
      .ok ("ab" ++ strRepeat ' ' (defaultConfig.column_width - ((uncolor "ab").length : Int))) :=
  ⟨(c3_column { defaultConfig with dotted := true } "ab").1 rfl,
   ((c3_column defaultConfig "ab").2 rfl).1⟩

end PrettySitter
